import Mathlib

/-!
Verification of the modbus-driver-synthesis agent service.

This file gives a shallow embedding of the core of the repository:

* `ValidatingModbusDataBlock` from `simulator/modbus_simulator.py`
  (strict address validation, synthetic register values);
* `SolarInverterSimulator.configure_valid_addresses` and its context rebuild;
* the byte-level value-mismatch localization of
  `DriverTester._run_basic_connectivity_test`;
* `DriverTester.test_driver_code` (compile-error short-circuit and
  self-test-result interpretation, with Python dict results embedded as
  association lists);
* the LangGraph orchestration nodes of `agents/tester_agent.py`
  (`test_driver`, `should_retry`, `increment_attempt`, `finalize_result`)
  and the bounded retry loop of `agents/workflow.py`.

Machine integers are modelled as `Nat` (addresses and register values are
non-negative and bounded by the protocol); Python dicts either as Lean
functions `Nat → Option Nat` or, where dict-update semantics matter, as
association lists.  External collaborators (the LLM coder, the network
transport, the experience store, wall-clock durations) are abstracted as
parameters, exactly as the spec declares them external.
-/

namespace ModbusSynth

/-! ## ValidatingModbusDataBlock (modbus_simulator.py lines 26-120) -/

/-- Embedding of `ValidatingModbusDataBlock._generate_realistic_value`: banded synthetic
values derived deterministically from the address alone. -/
def generate_realistic_value (address : Nat) : Nat :=
  if 30000 ≤ address ∧ address < 30100 then 1
  else if 30100 ≤ address ∧ address < 30200 then 2500 + address % 100
  else if 30200 ≤ address ∧ address < 30300 then 230 + address % 10
  else if 30300 ≤ address ∧ address < 30400 then 10 + address % 10
  else if 30400 ≤ address ∧ address < 30500 then 25 + address % 20
  else if 30500 ≤ address ∧ address < 30600 then 1000 + address % 500
  else if 40000 ≤ address ∧ address < 50000 then address % 1000
  else address % 65536

/-- The state of a `ValidatingModbusDataBlock`: the allow-list and the
values dict (a partial map from address to register value). -/
structure DataBlock where
  valid_addresses : Finset Nat
  values : Nat → Option Nat

/-- The seeding loop of `ValidatingModbusDataBlock.__init__`: every valid
address not already present in the values dict receives a synthetic value;
explicitly seeded entries are kept. -/
def initValues (valid : Finset Nat) (explicit : Nat → Option Nat) : Nat → Option Nat :=
  fun addr =>
    match explicit addr with
    | some v => some v
    | Option.none =>
        if addr ∈ valid then some (generate_realistic_value addr) else Option.none

/-- Constructing a `ValidatingModbusDataBlock` from an allow-list and the
optional explicit values dict. -/
def mkDataBlock (valid : Finset Nat) (explicit : Nat → Option Nat) : DataBlock :=
  { valid_addresses := valid, values := initValues valid explicit }

/-- Embedding of `ValidatingModbusDataBlock.validate`: true iff every address in
`[address, address+count)` is in the allow-list. -/
def validate (b : DataBlock) (address : Nat) (count : Nat) : Bool :=
  (List.range' address count).all (fun addr => decide (addr ∈ b.valid_addresses))

/-- The exception raised by the data block on an invalid address
(`ModbusException("IllegalDataAddress")`). -/
inductive ModbusError where
  | illegalDataAddress
deriving DecidableEq

/-- Embedding of `ValidatingModbusDataBlock.getValues`: raises for invalid ranges,
otherwise serves `values.get(addr, 0)` for each address of the range. -/
def getValues (b : DataBlock) (address : Nat) (count : Nat) :
    Except ModbusError (List Nat) :=
  if validate b address count then
    Except.ok ((List.range' address count).map (fun addr => (b.values addr).getD 0))
  else
    Except.error ModbusError.illegalDataAddress

theorem validate_eq_true_iff (b : DataBlock) (a n : Nat) :
    validate b a n = true ↔ ∀ addr, a ≤ addr → addr < a + n → addr ∈ b.valid_addresses := by
  unfold validate
  rw [List.all_eq_true]
  constructor
  · intro h addr h1 h2
    have hm : addr ∈ List.range' a n := by
      rw [List.mem_range'_1]
      exact ⟨h1, h2⟩
    simpa using h addr hm
  · intro h addr hm
    rw [List.mem_range'_1] at hm
    simp only [decide_eq_true_eq]
    exact h addr hm.1 hm.2

theorem validate_eq_false_iff (b : DataBlock) (a n : Nat) :
    validate b a n = false ↔ ∃ addr, a ≤ addr ∧ addr < a + n ∧ addr ∉ b.valid_addresses := by
  rw [← Bool.not_eq_true, validate_eq_true_iff]
  push_neg
  constructor
  · rintro ⟨addr, h1, h2, h3⟩
    exact ⟨addr, h1, h2, h3⟩
  · rintro ⟨addr, h1, h2, h3⟩
    exact ⟨addr, h1, h2, h3⟩

/-! ## SolarInverterSimulator (modbus_simulator.py lines 183-309) -/

/-- The address/value state of a `SolarInverterSimulator`: allow-lists and
values dicts per function class (holding and input registers). -/
structure SimulatorState where
  valid_holding : Finset Nat
  valid_input : Finset Nat
  holding_values : Nat → Option Nat
  input_values : Nat → Option Nat

/-- The `values.update(...)` dict merge used by `configure_valid_addresses`. -/
def dictMerge (m : Nat → Option Nat) (vs : List (Nat × Nat)) : Nat → Option Nat :=
  vs.foldl (fun acc p => Function.update acc p.1 (some p.2)) m

/-- Embedding of `SolarInverterSimulator.configure_valid_addresses`.  Each allow-list is
replaced only when the passed argument is truthy in Python: `None` and the
empty set both leave the previous allow-list in place. -/
def configure_valid_addresses (sim : SimulatorState)
    (holding_addresses input_addresses : Option (Finset Nat))
    (values : Option (List (Nat × Nat))) : SimulatorState :=
  let sim1 :=
    match holding_addresses with
    | some s => if s = ∅ then sim else { sim with valid_holding := s }
    | Option.none => sim
  let sim2 :=
    match input_addresses with
    | some s => if s = ∅ then sim1 else { sim1 with valid_input := s }
    | Option.none => sim1
  match values with
  | some vs =>
      if vs = [] then sim2
      else { sim2 with
              holding_values := dictMerge sim2.holding_values vs,
              input_values := dictMerge sim2.input_values vs }
  | Option.none => sim2

/-- The holding-register block of the context built by
`SolarInverterSimulator.create_context` via `StrictValidatingSlaveContext`. -/
def holdingBlock (sim : SimulatorState) : DataBlock :=
  mkDataBlock sim.valid_holding sim.holding_values

/-- The input-register block of the context built by
`SolarInverterSimulator.create_context` via `StrictValidatingSlaveContext`. -/
def inputBlock (sim : SimulatorState) : DataBlock :=
  mkDataBlock sim.valid_input sim.input_values

/-! ## Byte-level value-mismatch localization
(`DriverTester._run_basic_connectivity_test`, modbus_simulator.py
lines 505-524) -/

/-- Embedding of `struct.pack(">H", v)`: the canonical big-endian 2-byte representation
of a 16-bit register value. -/
def pack16BE (v : Nat) : List Nat := [v / 256, v % 256]

/-- The `for i, (e, a) in enumerate(zip(expected_bytes, actual_bytes))`
loop: the index of the first differing byte pair, if any. -/
def firstDiffFrom : List (Nat × Nat) → Nat → Option Nat
  | [], _ => Option.none
  | (e, a) :: rest, i => if e ≠ a then some i else firstDiffFrom rest (i + 1)

/-- The `error_byte_position` reported on a value mismatch: the first
differing offset of the zipped byte strings. -/
def errorBytePos (expected_bytes actual_bytes : List Nat) : Option Nat :=
  firstDiffFrom (expected_bytes.zip actual_bytes) 0

/-! ## DriverTester.test_driver_code (modbus_simulator.py lines 326-428)

Python dict results are embedded as association lists so that
`result.update(test_result)` keeps its overwrite semantics. -/

/-- A Python value as it occurs in the tester's result dict. -/
inductive PyValue where
  | bool (b : Bool)
  | num (n : Int)
  | str (s : String)
  | pyNone
  | numList (l : List Int)
  | strList (l : List String)
deriving DecidableEq

/-- A Python dict with string keys, as an association list. -/
abbrev PyDict : Type := List (String × PyValue)

/-- Python `d[k] = v`: overwrite the existing entry or append a new one. -/
def dictSet (d : PyDict) (k : String) (v : PyValue) : PyDict :=
  if (List.any d fun kv => kv.1 == k) then
    List.map (fun kv => if kv.1 == k then (k, v) else kv) d
  else
    d ++ [(k, v)]

/-- Python `d.update(e)`: set every entry of `e` into `d` in order. -/
def dictUpdate (d e : PyDict) : PyDict :=
  List.foldl (fun acc kv => dictSet acc kv.1 kv.2) d e

/-- Python `d[k]` lookup, with `pyNone` for a missing key. -/
def dictGet (d : PyDict) (k : String) : PyValue :=
  match List.find? (fun kv => kv.1 == k) d with
  | some kv => kv.2
  | Option.none => PyValue.pyNone

/-- The `result` dict initialized at the top of `test_driver_code`
(lines 345-354). -/
def initResult : PyDict :=
  [("success", PyValue.bool false),
   ("tested_registers", PyValue.strList []),
   ("expected_bytes", PyValue.pyNone),
   ("actual_bytes", PyValue.pyNone),
   ("error_message", PyValue.pyNone),
   ("error_byte_position", PyValue.pyNone),
   ("invalid_address", PyValue.pyNone),
   ("suggested_addresses", PyValue.numList [])]

/-- What the located self-test entry point does when invoked. -/
inductive SelfTestReturn where
  | bool (b : Bool)
  | dict (d : PyDict)
  | other
  | throws (msg : String)

/-- The outcome of `exec(driver_code, test_namespace)` followed by the
entry-point search: a syntax error (with `e.offset` when available), a
non-syntax execution error, or a loaded namespace with an optional
self-test entry point.  `σ` is the (abstract) state of the Modbus test
server, threaded through any candidate execution. -/
inductive ExecOutcome (σ : Type) where
  | syntaxError (offset : Option Int) (msg : String)
  | execError (msg : String)
  | loaded (entry : Option (σ → SelfTestReturn × σ))

/-- Python `"needle" in haystack` substring containment. -/
def strContains (needle haystack : String) : Bool :=
  decide (needle.toList <:+: haystack.toList)

/-- The `try: test_result = await test_func() ... except` block of
`test_driver_code` (lines 406-423): interpret the entry point's return
value — boolean becomes the success flag, a dict is merged into the
result via `result.update`, anything else counts as success; an
exception mentioning IllegalDataAddress populates the sorted, truncated
address suggestions. -/
def interpretSelfTest {σ : Type} (res : SelfTestReturn × σ)
    (valid_addresses : Option (Finset Nat)) : PyDict × σ :=
  match res with
  | (SelfTestReturn.bool b, s) => (dictSet initResult "success" (PyValue.bool b), s)
  | (SelfTestReturn.dict d, s) => (dictUpdate initResult d, s)
  | (SelfTestReturn.other, s) => (dictSet initResult "success" (PyValue.bool true), s)
  | (SelfTestReturn.throws msg, s) =>
      if strContains "IllegalDataAddress" msg || strContains "0x02" msg then
        let r1 := dictSet initResult "error_message"
          (PyValue.str ("ILLEGAL DATA ADDRESS: Driver tried to access an invalid register. " ++ msg))
        let r2 :=
          match valid_addresses with
          | some va =>
              if va = ∅ then r1
              else dictSet r1 "suggested_addresses"
                (PyValue.numList (((Finset.sort (· ≤ ·) va).take 10).map Int.ofNat))
          | Option.none => r1
        (r2, s)
      else
        (dictSet initResult "error_message"
          (PyValue.str ("Driver test failed: " ++ msg)), s)

/-- Embedding of `DriverTester.test_driver_code`.  The network-performing fallback
connectivity test (called only when no entry point is found) is abstracted
as the parameter `connectivity`; everything else follows the source branch
for branch.  The returned `σ` is the server state after the call. -/
def test_driver_code {σ : Type} (load : ExecOutcome σ)
    (connectivity : σ → PyDict × σ)
    (valid_addresses : Option (Finset Nat)) (server : σ) : PyDict × σ :=
  match load with
  | ExecOutcome.syntaxError offset msg =>
      (dictSet
        (dictSet initResult "error_message"
          (PyValue.str ("Syntax error in driver code: " ++ msg)))
        "error_byte_position"
        (match offset with
         | some o => PyValue.num o
         | Option.none => PyValue.pyNone),
       server)
  | ExecOutcome.execError msg =>
      (dictSet initResult "error_message"
        (PyValue.str ("Error executing driver code: " ++ msg)), server)
  | ExecOutcome.loaded Option.none => connectivity server
  | ExecOutcome.loaded (some run) => interpretSelfTest (run server) valid_addresses

/-! ## LangGraph orchestration (agents/state.py, agents/tester_agent.py,
agents/workflow.py) -/

/-- A register dict as built by `increment_attempt` (and consumed by the
coder): address, hex rendering, name, data type and Modbus function code. -/
structure RegisterSpec where
  address : Nat
  address_hex : String
  name : String
  data_type : String
  function_code : Nat
deriving DecidableEq

/-- One uppercase hex digit. -/
def hexDigit (n : Nat) : Char :=
  if n < 10 then Char.ofNat (48 + n) else Char.ofNat (55 + n)

/-- Python `f"0x7baddr:04X0x7d"` hex formatting for a 16-bit address. -/
def hex4 (n : Nat) : String :=
  String.mk [hexDigit (n / 4096 % 16), hexDigit (n / 256 % 16),
             hexDigit (n / 16 % 16), hexDigit (n % 16)]

/-- One entry of `attempt_logs` (wall-clock timestamp omitted;
`duration_ms` is a placeholder since wall time is not modelled). -/
structure AttemptLog where
  attempt_number : Nat
  agent_name : String
  action : String
  success : Bool
  error_message : Option String
  duration_ms : Nat
deriving DecidableEq

/-- The LangGraph `AgentState` of agents/state.py.  `attempt_logs` is an
append-reducer field: node outputs are concatenated onto it.  Defaults
are the `initial_state` values of `synthesize_driver` in
agents/workflow.py. -/
structure AgentState where
  raw_protocol_text : String := ""
  device_name : Option String := Option.none
  target_language : String := "python"
  previous_experience_context : Option String := Option.none
  parsed_specification : Option String := Option.none
  extracted_registers : List RegisterSpec := []
  protocol_signature : Option String := Option.none
  generated_code : Option String := Option.none
  code_version : Nat := 0
  test_passed : Bool := false
  test_error_message : Option String := Option.none
  test_error_bytes : Option String := Option.none
  test_byte_position : Option Nat := Option.none
  tested_registers : List String := []
  invalid_address : Option Nat := Option.none
  suggested_addresses : List Nat := []
  current_attempt : Nat := 1
  max_attempts : Nat := 3
  attempt_logs : List AttemptLog := []
  final_code : Option String := Option.none
  confidence_score : Rat := 0
  experience_id : Option String := Option.none

/-- What one invocation of the (external) tester produced, as consumed by
the `test_driver` node: either the result dict of
`DriverTester.test_driver_code`, or an unexpected exception (the
`except` branch of `test_driver`). -/
inductive TesterOutcome where
  | result (success : Bool) (error_message : Option String)
      (error_bytes : Option String) (byte_position : Option Nat)
      (tested : List String) (invalid : Option Nat) (suggested : List Nat)
  | throws (msg : String)

/-- The `generate_code` node of agents/coder_agent.py, with the LLM call
abstracted: `code = some src` is a successful generation, `Option.none`
the `except` branch (generation failure recorded as a failed log entry,
`generated_code = None`). -/
def generate_code (code : Option String) (err : Option String)
    (st : AgentState) : AgentState :=
  match code with
  | some src =>
      { st with generated_code := some src,
                code_version := st.current_attempt,
                attempt_logs := st.attempt_logs ++
                  [{ attempt_number := st.current_attempt, agent_name := "Coder",
                     action := "generate_code", success := true,
                     error_message := Option.none, duration_ms := 0 }] }
  | Option.none =>
      { st with generated_code := Option.none,
                code_version := st.current_attempt,
                attempt_logs := st.attempt_logs ++
                  [{ attempt_number := st.current_attempt, agent_name := "Coder",
                     action := "generate_code", success := false,
                     error_message := err, duration_ms := 0 }] }

/-- The `test_driver` node of agents/tester_agent.py: the no-code guard,
the normal result path and the unexpected-exception path, each recording
one Tester log entry. -/
def test_driver (o : TesterOutcome) (st : AgentState) : AgentState :=
  match st.generated_code with
  | Option.none =>
      { st with test_passed := false,
                test_error_message := some "No code to test",
                test_error_bytes := Option.none,
                test_byte_position := Option.none,
                tested_registers := [],
                invalid_address := Option.none,
                suggested_addresses := [],
                attempt_logs := st.attempt_logs ++
                  [{ attempt_number := st.current_attempt, agent_name := "Tester",
                     action := "test_driver", success := false,
                     error_message := some "No code to test", duration_ms := 0 }] }
  | some _ =>
      match o with
      | TesterOutcome.result succ msg bytes bpos tested inv sugg =>
          { st with test_passed := succ,
                    test_error_message := msg,
                    test_error_bytes := bytes,
                    test_byte_position := bpos,
                    tested_registers := tested,
                    invalid_address := inv,
                    suggested_addresses := sugg,
                    attempt_logs := st.attempt_logs ++
                      [{ attempt_number := st.current_attempt, agent_name := "Tester",
                         action := "test_driver", success := succ,
                         error_message := msg, duration_ms := 0 }] }
      | TesterOutcome.throws msg =>
          { st with test_passed := false,
                    test_error_message := some msg,
                    test_error_bytes := Option.none,
                    test_byte_position := Option.none,
                    tested_registers := [],
                    invalid_address := Option.none,
                    suggested_addresses := [],
                    attempt_logs := st.attempt_logs ++
                      [{ attempt_number := st.current_attempt, agent_name := "Tester",
                         action := "test_driver", success := false,
                         error_message := some msg, duration_ms := 0 }] }

/-- The `should_retry` conditional edge: test passed or attempt budget
exhausted go to finalize, otherwise retry. -/
def should_retry (st : AgentState) : String :=
  if st.test_passed then "finalize"
  else if st.max_attempts ≤ st.current_attempt then "finalize"
  else "increment_and_retry"

/-- The `increment_attempt` node: bump the attempt counter and, when the
failed attempt produced suggested addresses, replace
`extracted_registers` entirely with synthetic specs built from (at most
10 of) them; with no suggestions the register list is left unchanged. -/
def increment_attempt (st : AgentState) : AgentState :=
  if st.suggested_addresses.isEmpty then
    { st with current_attempt := st.current_attempt + 1 }
  else
    { st with current_attempt := st.current_attempt + 1,
              extracted_registers :=
                (st.suggested_addresses.take 10).map (fun addr =>
                  { address := addr,
                    address_hex := "0x" ++ hex4 addr,
                    name := "Register_" ++ toString addr,
                    data_type := "uint16",
                    function_code := 3 }) }

/-- The `finalize_result` node: confidence scoring and the final-code
gate.  The experience store call is external and does not feed back into
the returned state fields modelled here. -/
def finalize_result (st : AgentState) : AgentState :=
  let base_confidence : Rat := 9 / 10
  let attempt_penalty : Rat := ((st.current_attempt - 1 : Nat) : Rat) * (1 / 10)
  let confidence : Rat :=
    if st.test_passed then max (1 / 2) (base_confidence - attempt_penalty)
    else 1 / 10
  { st with
      final_code := if st.test_passed then st.generated_code else Option.none,
      confidence_score := confidence }

/-! ## The bounded retry loop (agents/workflow.py)

The graph is `coder → tester → (increment_and_retry → coder | finalize)`.
One iteration of the loop is one Generate→Test attempt; the per-attempt
outcomes (the LLM call and the candidate execution, both external) are a
parameter `outcomes : Nat → StageOutcome` indexed by the attempt number. -/

/-- The external outcomes of one attempt: what the coder produced and what
the tester observed. -/
structure StageOutcome where
  coder : Option String
  coderErr : Option String
  tester : TesterOutcome

/-- One Generate→Test cycle (the `coder → tester` edge). -/
def runAttempt (o : StageOutcome) (st : AgentState) : AgentState :=
  test_driver o.tester (generate_code o.coder o.coderErr st)

theorem generate_code_current_attempt (c e : Option String) (st : AgentState) :
    (generate_code c e st).current_attempt = st.current_attempt := by
  cases c <;> rfl

theorem generate_code_max_attempts (c e : Option String) (st : AgentState) :
    (generate_code c e st).max_attempts = st.max_attempts := by
  cases c <;> rfl

theorem test_driver_current_attempt (o : TesterOutcome) (st : AgentState) :
    (test_driver o st).current_attempt = st.current_attempt := by
  cases h : st.generated_code <;> cases o <;> simp [test_driver, h]

theorem test_driver_max_attempts (o : TesterOutcome) (st : AgentState) :
    (test_driver o st).max_attempts = st.max_attempts := by
  cases h : st.generated_code <;> cases o <;> simp [test_driver, h]

theorem runAttempt_current_attempt (o : StageOutcome) (st : AgentState) :
    (runAttempt o st).current_attempt = st.current_attempt := by
  unfold runAttempt
  rw [test_driver_current_attempt, generate_code_current_attempt]

theorem runAttempt_max_attempts (o : StageOutcome) (st : AgentState) :
    (runAttempt o st).max_attempts = st.max_attempts := by
  unfold runAttempt
  rw [test_driver_max_attempts, generate_code_max_attempts]

theorem increment_attempt_current_attempt (st : AgentState) :
    (increment_attempt st).current_attempt = st.current_attempt + 1 := by
  unfold increment_attempt
  split <;> rfl

theorem increment_attempt_max_attempts (st : AgentState) :
    (increment_attempt st).max_attempts = st.max_attempts := by
  unfold increment_attempt
  split <;> rfl

theorem increment_attempt_attempt_logs (st : AgentState) :
    (increment_attempt st).attempt_logs = st.attempt_logs := by
  unfold increment_attempt
  split <;> rfl

theorem should_retry_of_passed (st : AgentState) (h : st.test_passed = true) :
    should_retry st = "finalize" := by
  unfold should_retry
  rw [h]
  rfl

theorem should_retry_of_exhausted (st : AgentState)
    (h : st.max_attempts ≤ st.current_attempt) : should_retry st = "finalize" := by
  by_cases hp : st.test_passed
  · simp [should_retry, hp]
  · simp [should_retry, hp, h]

theorem lt_of_should_retry_ne (st : AgentState)
    (h : ¬ should_retry st = "finalize") :
    st.current_attempt < st.max_attempts := by
  by_contra hc
  exact h (should_retry_of_exhausted st (by omega))

/-- A log entry written by the tester node. -/
def isTesterLog (l : AttemptLog) : Bool := l.agent_name == "Tester"

theorem generate_code_tester_logs (c e : Option String) (st : AgentState) :
    ((generate_code c e st).attempt_logs.filter isTesterLog) =
      st.attempt_logs.filter isTesterLog := by
  cases c <;> simp [generate_code, List.filter_append, isTesterLog]

theorem test_driver_tester_logs (o : TesterOutcome) (st : AgentState) :
    ((test_driver o st).attempt_logs.filter isTesterLog).length =
      (st.attempt_logs.filter isTesterLog).length + 1 := by
  cases h : st.generated_code <;> cases o <;>
    simp [test_driver, h, List.filter_append, isTesterLog]

theorem runAttempt_tester_logs (o : StageOutcome) (st : AgentState) :
    ((runAttempt o st).attempt_logs.filter isTesterLog).length =
      (st.attempt_logs.filter isTesterLog).length + 1 := by
  unfold runAttempt
  rw [test_driver_tester_logs, generate_code_tester_logs]

/-- The compiled LangGraph loop, from the state entering the coder node to
the state on which the `finalize` edge is taken: run one attempt; if
`should_retry` says finalize, stop; otherwise increment and loop.
Termination is by the remaining attempt budget, exactly the bound
`should_retry` enforces. -/
def runLoop (outcomes : Nat → StageOutcome) (st : AgentState) : AgentState :=
  if h : should_retry (runAttempt (outcomes st.current_attempt) st) = "finalize" then
    runAttempt (outcomes st.current_attempt) st
  else
    runLoop outcomes (increment_attempt (runAttempt (outcomes st.current_attempt) st))
termination_by st.max_attempts - st.current_attempt
decreasing_by
  have h1 := lt_of_should_retry_ne _ h
  rw [runAttempt_current_attempt, runAttempt_max_attempts] at h1
  rw [increment_attempt_current_attempt, increment_attempt_max_attempts,
      runAttempt_current_attempt, runAttempt_max_attempts]
  omega

theorem runLoop_spec (outcomes : Nat → StageOutcome) :
    ∀ (n : Nat) (st : AgentState), st.max_attempts - st.current_attempt ≤ n →
      ((runLoop outcomes st).attempt_logs.filter isTesterLog).length ≤
        (st.attempt_logs.filter isTesterLog).length + n + 1 ∧
      should_retry (runLoop outcomes st) = "finalize" := by
  intro n
  induction n with
  | zero =>
      intro st hn
      rw [runLoop]
      have hret : should_retry (runAttempt (outcomes st.current_attempt) st) = "finalize" := by
        by_contra hc
        have := lt_of_should_retry_ne _ hc
        rw [runAttempt_current_attempt, runAttempt_max_attempts] at this
        omega
      rw [dif_pos hret]
      exact ⟨by rw [runAttempt_tester_logs], hret⟩
  | succ n ih =>
      intro st hn
      rw [runLoop]
      split
      · next hret =>
          exact ⟨by rw [runAttempt_tester_logs]; omega, hret⟩
      · next hret =>
          have hlt := lt_of_should_retry_ne _ hret
          rw [runAttempt_current_attempt, runAttempt_max_attempts] at hlt
          have hmeas : (increment_attempt (runAttempt (outcomes st.current_attempt) st)).max_attempts -
              (increment_attempt (runAttempt (outcomes st.current_attempt) st)).current_attempt ≤ n := by
            rw [increment_attempt_current_attempt, increment_attempt_max_attempts,
                runAttempt_current_attempt, runAttempt_max_attempts]
            omega
          obtain ⟨hlen, hfin⟩ := ih (increment_attempt (runAttempt (outcomes st.current_attempt) st)) hmeas
          refine ⟨?_, hfin⟩
          rw [increment_attempt_attempt_logs, runAttempt_tester_logs] at hlen
          omega

/-! ## Dict lemmas for the self-test result interpretation -/

theorem dictGet_cons_pos (a : String × PyValue) (tl : PyDict) (k : String)
    (h : (a.1 == k) = true) : dictGet (a :: tl) k = a.2 := by
  simp [dictGet, List.find?_cons, h]

theorem dictGet_cons_neg (a : String × PyValue) (tl : PyDict) (k : String)
    (h : (a.1 == k) = false) : dictGet (a :: tl) k = dictGet tl k := by
  simp [dictGet, List.find?_cons, h]

theorem dictGet_map_overwrite (k k' : String) (v : PyValue) (h : k ≠ k') :
    ∀ r : PyDict,
      dictGet (List.map (fun kv => if kv.1 == k' then (k', v) else kv) r) k = dictGet r k := by
  intro r
  induction r with
  | nil => rfl
  | cons a tl ih =>
      simp only [List.map_cons]
      by_cases ha : (a.1 == k') = true
      · have ha' : a.1 = k' := by simpa using ha
        have hk : ((k' : String) == k) = false := by
          simp only [beq_eq_false_iff_ne]
          exact fun e => h e.symm
        have ha2 : (a.1 == k) = false := by
          rw [ha']
          exact hk
        rw [if_pos ha, dictGet_cons_neg _ _ _ hk, dictGet_cons_neg _ _ _ ha2]
        exact ih
      · rw [if_neg ha]
        rcases hak : (a.1 == k) with _ | _
        · rw [dictGet_cons_neg _ _ _ hak, dictGet_cons_neg _ _ _ hak]
          exact ih
        · rw [dictGet_cons_pos _ _ _ hak, dictGet_cons_pos _ _ _ hak]

theorem dictGet_dictSet_ne (r : PyDict) (k k' : String) (v : PyValue) (h : k ≠ k') :
    dictGet (dictSet r k' v) k = dictGet r k := by
  unfold dictSet
  split
  · exact dictGet_map_overwrite k k' v h r
  · have hkv : ¬ (((k', v) : String × PyValue).1 == k) = true := by
      simp only [beq_iff_eq]
      exact fun e => h e.symm
    have hnone : List.find? (fun kv => kv.1 == k) [(k', v)] = Option.none := by
      simp only [List.find?_singleton, if_neg hkv]
    unfold dictGet
    rw [List.find?_append, hnone, Option.or_none]

theorem dictGet_dictUpdate_of_no_key (k : String) :
    ∀ (e r : PyDict), (∀ kv ∈ e, ¬ kv.1 = k) →
      dictGet (dictUpdate r e) k = dictGet r k := by
  intro e
  induction e with
  | nil => intro r _; rfl
  | cons a tl ih =>
      intro r h
      unfold dictUpdate at *
      rw [List.foldl_cons]
      rw [ih (dictSet r a.1 a.2) (fun kv hm => h kv (List.mem_cons_of_mem _ hm))]
      exact dictGet_dictSet_ne r k a.1 a.2
        (fun e' => h a (List.mem_cons_self _ _) e'.symm)

/-! ## Claim theorems -/

/-- C1: for every allow-list, start address `a` and count `n ≥ 1`, a read
of `n` registers starting at `a` succeeds with one value per address iff
every address of `[a, a+n)` is in the allow-list; a single address outside
the allow-list fails the whole read with IllegalDataAddress, with no
partial result. -/
theorem read_all_or_nothing (b : DataBlock) (a n : Nat) (hn : 1 ≤ n) :
    ((∃ l, getValues b a n = Except.ok l ∧ l.length = n) ↔
      ∀ addr, a ≤ addr → addr < a + n → addr ∈ b.valid_addresses) ∧
    ((∃ addr, a ≤ addr ∧ addr < a + n ∧ addr ∉ b.valid_addresses) →
      getValues b a n = Except.error ModbusError.illegalDataAddress) := by
  constructor
  · constructor
    · rintro ⟨l, hok, _⟩
      rw [← validate_eq_true_iff]
      cases hvb : validate b a n
      · unfold getValues at hok
        rw [hvb] at hok
        simp at hok
      · rfl
    · intro h
      refine ⟨(List.range' a n).map (fun addr => (b.values addr).getD 0), ?_, ?_⟩
      · unfold getValues
        rw [if_pos ((validate_eq_true_iff b a n).mpr h)]
      · rw [List.length_map, List.length_range']
  · rintro ⟨addr, h1, h2, h3⟩
    unfold getValues
    rw [if_neg]
    intro hv
    exact h3 ((validate_eq_true_iff b a n).mp hv addr h1 h2)

theorem read_all_or_nothing_witness :
    (1 : Nat) ≤ 2 ∧
    (((∃ l, getValues (mkDataBlock {1, 2} (fun _ => Option.none)) 1 2 = Except.ok l ∧
          l.length = 2) ↔
        ∀ addr, 1 ≤ addr → addr < 1 + 2 →
          addr ∈ (mkDataBlock {1, 2} (fun _ => Option.none)).valid_addresses) ∧
      ((∃ addr, 1 ≤ addr ∧ addr < 1 + 2 ∧
          addr ∉ (mkDataBlock {1, 2} (fun _ => Option.none)).valid_addresses) →
        getValues (mkDataBlock {1, 2} (fun _ => Option.none)) 1 2 =
          Except.error ModbusError.illegalDataAddress)) :=
  ⟨by decide, read_all_or_nothing (mkDataBlock {1, 2} (fun _ => Option.none)) 1 2 (by decide)⟩

/-- C8: the value served for a valid address that was not explicitly
seeded is `_generate_realistic_value` of the address — a deterministic
function of the address alone, identical across any two blocks (hence
across retries and repeated reads) as long as the address is not
explicitly reseeded. -/
theorem unconfigured_value_deterministic (valid1 valid2 : Finset Nat)
    (ex1 ex2 : Nat → Option Nat) (a : Nat)
    (h1 : a ∈ valid1) (h2 : a ∈ valid2)
    (e1 : ex1 a = Option.none) (e2 : ex2 a = Option.none) :
    getValues (mkDataBlock valid1 ex1) a 1 = Except.ok [generate_realistic_value a] ∧
    getValues (mkDataBlock valid1 ex1) a 1 = getValues (mkDataBlock valid2 ex2) a 1 := by
  have key : ∀ (valid : Finset Nat) (ex : Nat → Option Nat), a ∈ valid → ex a = Option.none →
      getValues (mkDataBlock valid ex) a 1 = Except.ok [generate_realistic_value a] := by
    intro valid ex hm he
    unfold getValues
    rw [if_pos]
    · unfold mkDataBlock initValues
      simp [List.range'_one, he, hm]
    · unfold validate mkDataBlock
      simp [List.range'_one, hm]
  exact ⟨key valid1 ex1 h1 e1, by rw [key valid1 ex1 h1 e1, key valid2 ex2 h2 e2]⟩

theorem unconfigured_value_deterministic_witness :
    (30050 ∈ ({30050} : Finset Nat) ∧ 30050 ∈ ({30050, 40000} : Finset Nat) ∧
      (fun _ : Nat => (Option.none : Option Nat)) 30050 = Option.none) ∧
    (getValues (mkDataBlock {30050} (fun _ => Option.none)) 30050 1 =
        Except.ok [generate_realistic_value 30050] ∧
      getValues (mkDataBlock {30050} (fun _ => Option.none)) 30050 1 =
        getValues (mkDataBlock {30050, 40000} (fun _ => Option.none)) 30050 1) :=
  ⟨⟨by decide, by decide, rfl⟩,
   unconfigured_value_deterministic {30050} {30050, 40000}
     (fun _ => Option.none) (fun _ => Option.none) 30050
     (by decide) (by decide) rfl rfl⟩

/-- The `initial_state` of `synthesize_driver`, with the attempt budget
`k = settings.max_internal_retries`. -/
def initial_state (protocol_text : String) (k : Nat) : AgentState :=
  { raw_protocol_text := protocol_text, max_attempts := k }

/-- C2: for every attempt budget `k ≥ 1` and every sequence of external
stage outcomes (including tester invocations that throw unexpectedly,
which `test_driver` records as normal failed attempts), the loop performs
at most `k` tester attempts and ends in a state whose next transition is
`finalize`; moreover any successful attempt and any attempt with number
`≥ max_attempts` transitions to `finalize`, never to another retry. -/
theorem retry_bound_terminates (outcomes : Nat → StageOutcome)
    (text : String) (k : Nat) (hk : 1 ≤ k) :
    (((runLoop outcomes (initial_state text k)).attempt_logs.filter isTesterLog).length ≤ k ∧
      should_retry (runLoop outcomes (initial_state text k)) = "finalize") ∧
    (∀ st : AgentState, st.test_passed = true → should_retry st = "finalize") ∧
    (∀ st : AgentState, st.max_attempts ≤ st.current_attempt →
      should_retry st = "finalize") := by
  refine ⟨?_, fun st h => should_retry_of_passed st h,
          fun st h => should_retry_of_exhausted st h⟩
  have hmeas : (initial_state text k).max_attempts - (initial_state text k).current_attempt ≤ k - 1 := by
    show k - 1 ≤ k - 1
    exact Nat.le_refl _
  obtain ⟨h1, h2⟩ := runLoop_spec outcomes (k - 1) (initial_state text k) hmeas
  refine ⟨?_, h2⟩
  have hlogs : ((initial_state text k).attempt_logs.filter isTesterLog).length = 0 := rfl
  rw [hlogs] at h1
  omega

theorem retry_bound_terminates_witness :
    (1 : Nat) ≤ 2 ∧
    (((runLoop
          (fun _ => { coder := some "code", coderErr := Option.none,
                      tester := TesterOutcome.result false (some "boom") Option.none
                        Option.none [] Option.none [] })
          (initial_state "spec text" 2)).attempt_logs.filter isTesterLog).length ≤ 2 ∧
      should_retry
        (runLoop
          (fun _ => { coder := some "code", coderErr := Option.none,
                      tester := TesterOutcome.result false (some "boom") Option.none
                        Option.none [] Option.none [] })
          (initial_state "spec text" 2)) = "finalize") ∧
    (∀ st : AgentState, st.test_passed = true → should_retry st = "finalize") ∧
    (∀ st : AgentState, st.max_attempts ≤ st.current_attempt →
      should_retry st = "finalize") :=
  ⟨by decide,
   retry_bound_terminates
     (fun _ => { coder := some "code", coderErr := Option.none,
                 tester := TesterOutcome.result false (some "boom") Option.none
                   Option.none [] Option.none [] })
     "spec text" 2 (by decide)⟩

/-- The set of register addresses of a list of register specs. -/
def registerAddressSet (regs : List RegisterSpec) : Finset Nat :=
  (regs.map (fun r => r.address)).toFinset

/-- A register spec at address 7 (part of a prior, failing map). -/
def c3Reg : RegisterSpec :=
  { address := 7, address_hex := "0x0007", name := "Reg7",
    data_type := "uint16", function_code := 3 }

/-- A state entering the retry step whose failing map holds address 7 and
whose diagnosis suggested the single address 5. -/
def c3State : AgentState :=
  { suggested_addresses := [5], extracted_registers := [c3Reg] }

/-- C3 counterexample: with a non-empty suggestion list of at most 10
addresses, the next map's address set equals the suggested set, so it is
not a *strict* subset of it, refuting the claim as stated at the concrete
state `c3State`. -/
theorem retry_replacement_not_strict_cex :
    c3State.suggested_addresses ≠ [] ∧
    ¬ registerAddressSet (increment_attempt c3State).extracted_registers ⊂
        c3State.suggested_addresses.toFinset := by
  constructor
  · decide
  · intro hss
    have : registerAddressSet (increment_attempt c3State).extracted_registers =
        c3State.suggested_addresses.toFinset := by decide
    rw [this] at hss
    exact (lt_irrefl _ hss)

theorem increment_attempt_registers_of_ne (st : AgentState)
    (h : st.suggested_addresses.isEmpty = false) :
    (increment_attempt st).extracted_registers =
      (st.suggested_addresses.take 10).map (fun addr =>
        { address := addr, address_hex := "0x" ++ hex4 addr,
          name := "Register_" ++ toString addr, data_type := "uint16",
          function_code := 3 }) := by
  unfold increment_attempt
  rw [h]
  rfl

/-- C3 amended: if the failed attempt produced a non-empty
`suggested_addresses` list, the next attempt's register map is built
entirely from those suggestions — its address set is a subset (not
necessarily strict) of the suggested list, so it contains no address of
the prior failing map unless that address is also suggested; with an
empty suggestion list the register map is left unchanged. -/
theorem retry_replacement_subset (st : AgentState) :
    (st.suggested_addresses ≠ [] →
      registerAddressSet (increment_attempt st).extracted_registers ⊆
          st.suggested_addresses.toFinset ∧
      ∀ a ∈ registerAddressSet (increment_attempt st).extracted_registers,
        a ∈ st.suggested_addresses) ∧
    (st.suggested_addresses = [] →
      (increment_attempt st).extracted_registers = st.extracted_registers) := by
  constructor
  · intro h
    have hne : st.suggested_addresses.isEmpty = false := by
      cases hs : st.suggested_addresses
      · exact absurd hs h
      · rfl
    have hmem : ∀ a ∈ registerAddressSet (increment_attempt st).extracted_registers,
        a ∈ st.suggested_addresses := by
      intro a ha
      rw [increment_attempt_registers_of_ne st hne] at ha
      unfold registerAddressSet at ha
      rw [List.mem_toFinset] at ha
      obtain ⟨r, hr, hra⟩ := List.mem_map.mp ha
      obtain ⟨addr, haddr, rfl⟩ := List.mem_map.mp hr
      have haa : addr = a := hra
      subst haa
      exact List.take_subset _ _ haddr
    exact ⟨fun a ha => List.mem_toFinset.mpr (hmem a ha), hmem⟩
  · intro h
    unfold increment_attempt
    rw [show st.suggested_addresses.isEmpty = true by rw [h]; rfl]
    rfl

theorem retry_replacement_subset_witness :
    c3State.suggested_addresses ≠ [] ∧
    (registerAddressSet (increment_attempt c3State).extracted_registers ⊆
        c3State.suggested_addresses.toFinset ∧
      ∀ a ∈ registerAddressSet (increment_attempt c3State).extracted_registers,
        a ∈ c3State.suggested_addresses) :=
  ⟨by decide, (retry_replacement_subset c3State).1 (by decide)⟩

/-- C4: at finalize, a passing run gets confidence
`max(0.5, 0.9 − 0.1·(n−1))` — in particular 0.9 at one attempt, 0.8 at
two, never below 0.5 — and a failing run gets exactly 0.1. -/
theorem finalize_confidence_spec (st : AgentState) (hn : 1 ≤ st.current_attempt) :
    (st.test_passed = true →
      (finalize_result st).confidence_score =
        max (1 / 2 : Rat) (9 / 10 - ((st.current_attempt - 1 : Nat) : Rat) * (1 / 10)) ∧
      (st.current_attempt = 1 → (finalize_result st).confidence_score = 9 / 10) ∧
      (st.current_attempt = 2 → (finalize_result st).confidence_score = 8 / 10) ∧
      (1 / 2 : Rat) ≤ (finalize_result st).confidence_score) ∧
    (st.test_passed = false → (finalize_result st).confidence_score = 1 / 10) := by
  constructor
  · intro hp
    have hc : (finalize_result st).confidence_score =
        max (1 / 2 : Rat) (9 / 10 - ((st.current_attempt - 1 : Nat) : Rat) * (1 / 10)) := by
      simp [finalize_result, hp]
    refine ⟨hc, ?_, ?_, ?_⟩
    · intro h1
      rw [hc, h1]
      norm_num
    · intro h2
      rw [hc, h2]
      norm_num
    · rw [hc]
      exact le_max_left _ _
  · intro hp
    simp [finalize_result, hp]

theorem finalize_confidence_spec_witness :
    (1 : Nat) ≤ ({ test_passed := true, current_attempt := 2 } : AgentState).current_attempt ∧
    (({ test_passed := true, current_attempt := 2 } : AgentState).test_passed = true →
      (finalize_result { test_passed := true, current_attempt := 2 }).confidence_score =
        max (1 / 2 : Rat)
          (9 / 10 -
            ((({ test_passed := true, current_attempt := 2 } : AgentState).current_attempt - 1 : Nat) : Rat) *
              (1 / 10)) ∧
      (({ test_passed := true, current_attempt := 2 } : AgentState).current_attempt = 1 →
        (finalize_result { test_passed := true, current_attempt := 2 }).confidence_score = 9 / 10) ∧
      (({ test_passed := true, current_attempt := 2 } : AgentState).current_attempt = 2 →
        (finalize_result { test_passed := true, current_attempt := 2 }).confidence_score = 8 / 10) ∧
      (1 / 2 : Rat) ≤ (finalize_result { test_passed := true, current_attempt := 2 }).confidence_score) ∧
    (({ test_passed := true, current_attempt := 2 } : AgentState).test_passed = false →
      (finalize_result { test_passed := true, current_attempt := 2 }).confidence_score = 1 / 10) :=
  ⟨by decide, finalize_confidence_spec { test_passed := true, current_attempt := 2 } (by decide)⟩

/-- C9: a terminal state whose final test did not pass gets
`final_code = None` — the generated candidate is never returned as
validated — while the attempt log and the last diagnosis are passed
through unchanged; when the test passed, `final_code` is exactly the
generated candidate. -/
theorem finalize_never_returns_unvalidated (st : AgentState) :
    (st.test_passed = false →
      (finalize_result st).final_code = Option.none ∧
      (finalize_result st).attempt_logs = st.attempt_logs ∧
      (finalize_result st).test_error_message = st.test_error_message) ∧
    (st.test_passed = true → (finalize_result st).final_code = st.generated_code) := by
  constructor
  · intro h
    refine ⟨?_, rfl, rfl⟩
    simp [finalize_result, h]
  · intro h
    simp [finalize_result, h]

theorem finalize_never_returns_unvalidated_witness :
    (({ test_passed := false, generated_code := some "candidate" } : AgentState).test_passed = false) ∧
    ((finalize_result { test_passed := false, generated_code := some "candidate" }).final_code =
        Option.none ∧
      (finalize_result { test_passed := false, generated_code := some "candidate" }).attempt_logs =
        ({ test_passed := false, generated_code := some "candidate" } : AgentState).attempt_logs ∧
      (finalize_result { test_passed := false, generated_code := some "candidate" }).test_error_message =
        ({ test_passed := false, generated_code := some "candidate" } : AgentState).test_error_message) :=
  ⟨rfl, (finalize_never_returns_unvalidated
          { test_passed := false, generated_code := some "candidate" }).1 rfl⟩

/-- C5: for 16-bit expected/actual values that differ, the value-mismatch
diagnostic reports as the error byte position the index of the first byte
at which the two big-endian representations differ; concretely for
expected 100 and actual 200 the reported first differing offset is 1. -/
theorem byte_mismatch_localization (e a : Nat) (he : e < 65536) (ha : a < 65536)
    (hne : e ≠ a) :
    (∃ i, errorBytePos (pack16BE e) (pack16BE a) = some i ∧
      (pack16BE e).getD i 0 ≠ (pack16BE a).getD i 0 ∧
      ∀ j, j < i → (pack16BE e).getD j 0 = (pack16BE a).getD j 0) ∧
    errorBytePos (pack16BE 100) (pack16BE 200) = some 1 := by
  refine ⟨?_, by decide⟩
  by_cases h0 : e / 256 = a / 256
  · have h1 : e % 256 ≠ a % 256 := by
      intro hm
      exact hne (by omega)
    refine ⟨1, ?_, ?_, ?_⟩
    · unfold errorBytePos pack16BE
      simp [List.zip, firstDiffFrom, h0, h1]
    · simpa [pack16BE] using h1
    · intro j hj
      have hj0 : j = 0 := by omega
      subst hj0
      simpa [pack16BE] using h0
  · refine ⟨0, ?_, ?_, ?_⟩
    · unfold errorBytePos pack16BE
      simp [List.zip, firstDiffFrom, h0]
    · simpa [pack16BE] using h0
    · intro j hj
      omega

theorem byte_mismatch_localization_witness :
    ((100 : Nat) < 65536 ∧ (200 : Nat) < 65536 ∧ (100 : Nat) ≠ 200) ∧
    ((∃ i, errorBytePos (pack16BE 100) (pack16BE 200) = some i ∧
        (pack16BE 100).getD i 0 ≠ (pack16BE 200).getD i 0 ∧
        ∀ j, j < i → (pack16BE 100).getD j 0 = (pack16BE 200).getD j 0) ∧
      errorBytePos (pack16BE 100) (pack16BE 200) = some 1) :=
  ⟨⟨by decide, by decide, by decide⟩,
   byte_mismatch_localization 100 200 (by decide) (by decide) (by decide)⟩

/-- A simulator whose holding allow-list is the lone address 5. -/
def c6Sim : SimulatorState :=
  { valid_holding := {5}, valid_input := {3},
    holding_values := fun _ => Option.none,
    input_values := fun _ => Option.none }

/-- C6 counterexample: configuring with the empty address set does not
replace the allow-list — Python falsiness skips the update — so the
holding allow-list stays `{5}` and a read of address 5 is still accepted,
refuting the claim for `S = ∅`. -/
theorem configure_empty_set_cex :
    (configure_valid_addresses c6Sim (some (∅ : Finset Nat)) Option.none Option.none).valid_holding ≠
        (∅ : Finset Nat) ∧
    validate
      (holdingBlock (configure_valid_addresses c6Sim (some (∅ : Finset Nat))
        Option.none Option.none)) 5 1 = true := by
  constructor
  · decide
  · decide

/-- C6 amended: for every *non-empty* address set `S`, configure replaces
that function class's allow-list with exactly `S`, so that a subsequent
single-register read against the rebuilt context is accepted precisely
for addresses in `S`; an empty (or omitted) set leaves the allow-list
unchanged. -/
theorem configure_nonempty_replaces (sim : SimulatorState) (S : Finset Nat)
    (h : S ≠ ∅) :
    ((configure_valid_addresses sim (some S) Option.none Option.none).valid_holding = S ∧
      ∀ a, validate (holdingBlock
          (configure_valid_addresses sim (some S) Option.none Option.none)) a 1 = true ↔
        a ∈ S) ∧
    ((configure_valid_addresses sim Option.none (some S) Option.none).valid_input = S ∧
      ∀ a, validate (inputBlock
          (configure_valid_addresses sim Option.none (some S) Option.none)) a 1 = true ↔
        a ∈ S) ∧
    ((configure_valid_addresses sim (some (∅ : Finset Nat)) Option.none Option.none).valid_holding =
        sim.valid_holding ∧
      (configure_valid_addresses sim Option.none (some (∅ : Finset Nat)) Option.none).valid_input =
        sim.valid_input) := by
  have hval : ∀ (b : DataBlock) (a : Nat),
      validate b a 1 = true ↔ a ∈ b.valid_addresses := by
    intro b a
    unfold validate
    simp [List.range'_one]
  refine ⟨⟨?_, ?_⟩, ⟨?_, ?_⟩, ?_, ?_⟩
  · simp [configure_valid_addresses, h]
  · intro a
    rw [hval]
    unfold holdingBlock mkDataBlock
    simp [configure_valid_addresses, h]
  · simp [configure_valid_addresses, h]
  · intro a
    rw [hval]
    unfold inputBlock mkDataBlock
    simp [configure_valid_addresses, h]
  · simp [configure_valid_addresses]
  · simp [configure_valid_addresses]

theorem configure_nonempty_replaces_witness :
    ({3, 7} : Finset Nat) ≠ ∅ ∧
    (((configure_valid_addresses c6Sim (some {3, 7}) Option.none Option.none).valid_holding = {3, 7} ∧
        ∀ a, validate (holdingBlock
            (configure_valid_addresses c6Sim (some {3, 7}) Option.none Option.none)) a 1 = true ↔
          a ∈ ({3, 7} : Finset Nat)) ∧
      ((configure_valid_addresses c6Sim Option.none (some {3, 7}) Option.none).valid_input = {3, 7} ∧
        ∀ a, validate (inputBlock
            (configure_valid_addresses c6Sim Option.none (some {3, 7}) Option.none)) a 1 = true ↔
          a ∈ ({3, 7} : Finset Nat)) ∧
      ((configure_valid_addresses c6Sim (some (∅ : Finset Nat)) Option.none Option.none).valid_holding =
          c6Sim.valid_holding ∧
        (configure_valid_addresses c6Sim Option.none (some (∅ : Finset Nat)) Option.none).valid_input =
          c6Sim.valid_input)) :=
  ⟨by decide, configure_nonempty_replaces c6Sim {3, 7} (by decide)⟩

/-- C7: a candidate whose load fails with a syntax error yields a
compile-error result (offending offset captured when available, success
false) and returns before any execution: the test-server state — and with
it any call count — is unchanged, and neither the self-test entry point
nor the fallback connectivity test is invoked. -/
theorem compile_error_no_execution {σ : Type} (connectivity : σ → PyDict × σ)
    (valid_addresses : Option (Finset Nat)) (server : σ)
    (offset : Option Int) (msg : String) :
    (test_driver_code (ExecOutcome.syntaxError offset msg) connectivity
        valid_addresses server).2 = server ∧
    dictGet (test_driver_code (ExecOutcome.syntaxError offset msg) connectivity
        valid_addresses server).1 "success" = PyValue.bool false ∧
    dictGet (test_driver_code (ExecOutcome.syntaxError offset msg) connectivity
        valid_addresses server).1 "error_message" =
      PyValue.str ("Syntax error in driver code: " ++ msg) ∧
    dictGet (test_driver_code (ExecOutcome.syntaxError offset msg) connectivity
        valid_addresses server).1 "error_byte_position" =
      (match offset with
       | some o => PyValue.num o
       | Option.none => PyValue.pyNone) :=
  ⟨rfl, rfl, rfl, rfl⟩

/-- C10: when the located self-test entry point returns a dict, the
attempt's success flag comes only from the dict's `success` key — a dict
omitting that key leaves success at its initialized `false` — while a
bare boolean return sets the flag to that boolean and any other return
value marks the attempt successful. -/
theorem selftest_dict_success_semantics {σ : Type} (connectivity : σ → PyDict × σ)
    (valid_addresses : Option (Finset Nat)) (server : σ) :
    (∀ (run : σ → SelfTestReturn × σ) (d : PyDict),
        (run server).1 = SelfTestReturn.dict d →
        (∀ kv ∈ d, ¬ kv.1 = "success") →
        dictGet (test_driver_code (ExecOutcome.loaded (some run)) connectivity
            valid_addresses server).1 "success" = PyValue.bool false) ∧
    (∀ (run : σ → SelfTestReturn × σ),
        (run server).1 = SelfTestReturn.other →
        dictGet (test_driver_code (ExecOutcome.loaded (some run)) connectivity
            valid_addresses server).1 "success" = PyValue.bool true) ∧
    (∀ (run : σ → SelfTestReturn × σ) (b : Bool),
        (run server).1 = SelfTestReturn.bool b →
        dictGet (test_driver_code (ExecOutcome.loaded (some run)) connectivity
            valid_addresses server).1 "success" = PyValue.bool b) := by
  refine ⟨?_, ?_, ?_⟩
  · intro run d hret hkeys
    rcases hrs : run server with ⟨r, s⟩
    rw [hrs] at hret
    simp only at hret
    subst hret
    show dictGet (interpretSelfTest (run server) valid_addresses).1 "success" =
      PyValue.bool false
    rw [hrs]
    show dictGet (dictUpdate initResult d) "success" = PyValue.bool false
    rw [dictGet_dictUpdate_of_no_key "success" d initResult hkeys]
    rfl
  · intro run hret
    rcases hrs : run server with ⟨r, s⟩
    rw [hrs] at hret
    simp only at hret
    subst hret
    show dictGet (interpretSelfTest (run server) valid_addresses).1 "success" =
      PyValue.bool true
    rw [hrs]
    rfl
  · intro run b hret
    rcases hrs : run server with ⟨r, s⟩
    rw [hrs] at hret
    simp only at hret
    subst hret
    show dictGet (interpretSelfTest (run server) valid_addresses).1 "success" =
      PyValue.bool b
    rw [hrs]
    rfl

theorem selftest_dict_success_semantics_witness :
    (((fun s : Nat => (SelfTestReturn.dict [("tested_registers", PyValue.strList [])], s)) 0).1 =
        SelfTestReturn.dict [("tested_registers", PyValue.strList [])] ∧
      ∀ kv ∈ ([("tested_registers", PyValue.strList [])] : PyDict), ¬ kv.1 = "success") ∧
    dictGet (test_driver_code
        (ExecOutcome.loaded
          (some (fun s : Nat => (SelfTestReturn.dict [("tested_registers", PyValue.strList [])], s))))
        (fun s : Nat => (initResult, s)) Option.none 0).1 "success" = PyValue.bool false :=
  ⟨⟨rfl, by decide⟩,
   (selftest_dict_success_semantics (fun s : Nat => (initResult, s)) Option.none 0).1
     (fun s : Nat => (SelfTestReturn.dict [("tested_registers", PyValue.strList [])], s))
     [("tested_registers", PyValue.strList [])] rfl (by decide)⟩

end ModbusSynth
